import Mathlib

/-!
Verification of the inventory ledger of the `holawaleh/e-commerce` backend
(`backend/inventory/`): a shallow embedding of the stock-movement append path
(`StockMovement.save` plus `StockMovementSerializer.validate`), the
reconciliation routine (`StockMovement.recalculate_stock`), the post-save
stock-alert signal (`check_stock_alerts`) and the manual alert resolution
endpoint (`StockAlertViewSet.resolve`), together with theorems checking the
specification's claims against it.

Conventions of the embedding:
* Django `IntegerField`s are `Int` (Python model-layer ints).
* A product's ledger is the list of its `StockMovement` rows in ascending
  `timestamp` order (timestamps are `auto_now_add`, so insertion order); a new
  row is appended at the end, and `recalculate_stock`'s
  `order_by("timestamp")` traversal is the left fold over that list.
* Blank Django char/text fields are the empty string (`not field` in Python
  is `field = ""`); nullable fields are `Option`.
* Each `raise serializers.ValidationError({field: msg})` of the serializer is
  one constructor of `ValidationError`; `ValidationError.field` records the
  field tag of the raised dict, and the insufficient-stock message's
  interpolated amounts are carried structurally.
-/

namespace Inventory

/-- The eight `StockMovement.MOVEMENT_TYPES` of `inventory/models.py`. -/
inductive MovementType where
  | STOCK_IN
  | SALE
  | RETURN
  | DAMAGE
  | THEFT
  | ADJUSTMENT
  | TRANSFER_OUT
  | TRANSFER_IN
  deriving DecidableEq

/-- The membership test `movement_type in [STOCK_IN, RETURN, TRANSFER_IN]`
used both by `StockMovement.save` and by `recalculate_stock` to classify a
movement as positive (stock-increasing). -/
def MovementType.isInbound : MovementType → Bool
  | .STOCK_IN => true
  | .RETURN => true
  | .TRANSFER_IN => true
  | _ => false

/-- The four `Product.TRACKING_CHOICES`. -/
inductive TrackingType where
  | NONE
  | SERIAL
  | BATCH
  | BOTH
  deriving DecidableEq

/-- The fields of `Product` that the stock paths read or write:
the cached `current_quantity`, the `reorder_level` threshold and the
`tracking_type` configuration. -/
structure Product where
  current_quantity : Int
  reorder_level : Int
  tracking_type : TrackingType
  deriving DecidableEq

/-- A persisted `StockMovement` row (the fields the claims touch). -/
structure StockMovement where
  movement_type : MovementType
  quantity : Int
  balance_after : Int
  serial_number : String
  batch_number : String
  reason : String
  timestamp : Nat
  deriving DecidableEq

/-- The caller-supplied data of a candidate movement, i.e. the writable
fields `StockMovementSerializer.validate` reads from `data`. -/
structure MovementInput where
  movement_type : MovementType
  quantity : Int
  serial_number : String
  batch_number : String
  reason : String
  deriving DecidableEq

/-- `StockMovement.save` on a new row (`is_new` branch): normalizes the
quantity with `abs`, computes `balance_after` from the cached
`product.current_quantity` (added for the inbound kinds, subtracted for all
others), writes the cached quantity back, and inserts the row. Returns the
updated product and the created row. -/
def save (product : Product) (i : MovementInput) (ts : Nat) :
    Product × StockMovement :=
  let qty : Int := |i.quantity|
  let bal : Int :=
    if i.movement_type.isInbound then product.current_quantity + qty
    else product.current_quantity - qty
  ({ product with current_quantity := bal },
   { movement_type := i.movement_type
     quantity := qty
     balance_after := bal
     serial_number := i.serial_number
     batch_number := i.batch_number
     reason := i.reason
     timestamp := ts })

/-- The dict returned by `StockMovement.recalculate_stock`: either
`{"fixed": True, "old_quantity": …, "new_quantity": …}` or
`{"fixed": False, "current_quantity": …}`. -/
inductive RecalcResult where
  | fixed (old_quantity new_quantity : Int)
  | notFixed (current_quantity : Int)
  deriving DecidableEq

/-- The replay loop of `recalculate_stock`: starting from `0`, add the
quantity of each inbound movement and subtract every other one, over the
ledger in timestamp order. -/
def recalcQuantity (movements : List StockMovement) : Int :=
  movements.foldl
    (fun acc m =>
      if m.movement_type.isInbound then acc + m.quantity else acc - m.quantity)
    0

/-- `StockMovement.recalculate_stock`: replay the ledger; on a discrepancy
overwrite `product.current_quantity` with the recomputed value and report
`fixed`. Faithful to the source's sequencing, the `old_quantity` field of the
result is read from `product.current_quantity` *after* the in-place update
(the Python dict is built after `product.current_quantity = calculated_quantity`),
so it carries the corrected value, not the pre-correction one. -/
def recalculate_stock (product : Product) (ledger : List StockMovement) :
    Product × RecalcResult :=
  let calculated_quantity := recalcQuantity ledger
  if product.current_quantity ≠ calculated_quantity then
    let product2 := { product with current_quantity := calculated_quantity }
    (product2, .fixed product2.current_quantity calculated_quantity)
  else
    (product, .notFixed calculated_quantity)

/-- The validation errors `StockMovementSerializer.validate` can raise, one
constructor per `raise serializers.ValidationError({field: …})` site; the
insufficient-stock constructor carries the `Available`/`Requested` amounts
interpolated into its message. -/
inductive ValidationError where
  | quantityNotPositive
  | serialRequired
  | batchRequired
  | trackingRequired
  | reasonRequired (movement_type : MovementType)
  | insufficientStock (available requested : Int)
  deriving DecidableEq

/-- The field tag of the single-entry dict each raise site passes to
`serializers.ValidationError`. -/
def ValidationError.field : ValidationError → String
  | .quantityNotPositive => "quantity"
  | .serialRequired => "serial_number"
  | .batchRequired => "batch_number"
  | .trackingRequired => "tracking"
  | .reasonRequired _ => "reason"
  | .insufficientStock _ _ => "quantity"

/-- `StockMovementSerializer.validate`: quantity positivity, then the
tracking-number requirements keyed on `product.tracking_type`, then the
reason requirement for `RETURN`/`DAMAGE`/`THEFT`/`ADJUSTMENT`, then the
sufficient-stock check for `SALE`/`DAMAGE`/`THEFT`/`TRANSFER_OUT`. Each
check `raise`s immediately, so the first failing rule aborts validation. -/
def validate (product : Product) (i : MovementInput) :
    Except ValidationError MovementInput :=
  if i.quantity ≤ 0 then
    .error .quantityNotPositive
  else if product.tracking_type = .SERIAL ∧ i.serial_number = "" then
    .error .serialRequired
  else if product.tracking_type = .BATCH ∧ i.batch_number = "" then
    .error .batchRequired
  else if product.tracking_type = .BOTH ∧
      (i.serial_number = "" ∨ i.batch_number = "") then
    .error .trackingRequired
  else if i.movement_type ∈
      [MovementType.RETURN, .DAMAGE, .THEFT, .ADJUSTMENT] ∧ i.reason = "" then
    .error (.reasonRequired i.movement_type)
  else if i.movement_type ∈
      [MovementType.SALE, .DAMAGE, .THEFT, .TRANSFER_OUT] ∧
      product.current_quantity < i.quantity then
    .error (.insufficientStock product.current_quantity i.quantity)
  else
    .ok i

/-- The `StockAlert.alert_type` choices. -/
inductive AlertType where
  | LOW_STOCK
  | OUT_OF_STOCK
  | EXPIRING_SOON
  deriving DecidableEq

/-- A `StockAlert` row; `resolved_by` is the resolving user's id and
`resolved_at`/`created_at` are instants (both nullable in the schema except
`created_at`). -/
structure StockAlert where
  alert_type : AlertType
  is_resolved : Bool
  resolved_at : Option Nat
  resolved_by : Option Nat
  created_at : Nat
  deriving DecidableEq

/-- Whether an unresolved alert of type `t` exists — the lookup half of the
signal's `get_or_create(…, alert_type=t, is_resolved=False)`. -/
def hasUnresolved (t : AlertType) (alerts : List StockAlert) : Bool :=
  alerts.any fun a => decide (a.alert_type = t ∧ a.is_resolved = false)

/-- The row `get_or_create` inserts when no unresolved alert of type `t`
exists: unresolved, with no resolver and no resolution time. -/
def newAlert (t : AlertType) (now : Nat) : StockAlert :=
  { alert_type := t, is_resolved := false, resolved_at := none,
    resolved_by := none, created_at := now }

/-- `get_or_create` on the unresolved-alert key: keep the list if an open
alert of that type exists, otherwise append a fresh one. -/
def getOrCreateUnresolved (t : AlertType) (alerts : List StockAlert)
    (now : Nat) : List StockAlert :=
  if hasUnresolved t alerts then alerts else alerts ++ [newAlert t now]

/-- The `check_stock_alerts` post-save signal body (updates branch,
`created=False`): at zero stock ensure an open `OUT_OF_STOCK` alert; else at
or below a positive `reorder_level` ensure an open `LOW_STOCK` alert;
otherwise `update(is_resolved=True)` every open `LOW_STOCK`/`OUT_OF_STOCK`
alert — note the update sets only `is_resolved`, leaving `resolved_at` and
`resolved_by` untouched. The `now` argument feeds only `created_at` of a
newly created alert. -/
def check_stock_alerts (product : Product) (alerts : List StockAlert)
    (now : Nat) : List StockAlert :=
  if product.current_quantity = 0 then
    getOrCreateUnresolved .OUT_OF_STOCK alerts now
  else if product.current_quantity ≤ product.reorder_level ∧
      product.reorder_level > 0 then
    getOrCreateUnresolved .LOW_STOCK alerts now
  else
    alerts.map fun a =>
      if a.is_resolved = false ∧
          a.alert_type ∈ [AlertType.LOW_STOCK, .OUT_OF_STOCK] then
        { a with is_resolved := true }
      else a

/-- The two failure modes of `StockAlertViewSet.resolve`:
`alreadyResolved` is the explicit 400 response
`{"error": "Alert is already resolved"}`; `unboundTimezone` is the
`NameError` the success path raises at `alert.resolved_at = timezone.now()`,
because `inventory/views.py` never imports `timezone` — the exception fires
after the in-memory assignments but before `alert.save()`, so the request
errors with nothing persisted. -/
inductive ResolveError where
  | alreadyResolved
  | unboundTimezone
  deriving DecidableEq

/-- `StockAlertViewSet.resolve`: an already-resolved alert yields the
`"Alert is already resolved"` 400 response and no state change; an
unresolved alert sets `is_resolved` and `resolved_by` in memory but then
hits the unbound name `timezone` and raises before `alert.save()`, so on
either branch no change to the alert is ever persisted and the endpoint
never returns a success. The `actor` argument is the requesting user
(assigned to `resolved_by` in memory only); `timezone.now()` never
evaluates, so no instant enters the model. -/
def resolve (alert : StockAlert) (actor : Nat) :
    Except ResolveError StockAlert :=
  if alert.is_resolved then
    .error .alreadyResolved
  else
    .error .unboundTimezone

/-- The per-product state the append path touches: the product row, its
ledger (ascending timestamps) and its alerts. -/
structure InventoryState where
  product : Product
  ledger : List StockMovement
  alerts : List StockAlert
  deriving DecidableEq

/-- The full append path of `POST /stock-movements/`: run the serializer's
`validate`; on success run `StockMovement.save`, whose inner
`product.save(...)` fires the `check_stock_alerts` signal with the updated
product, and insert the new row at the ledger's end. -/
def append_movement (s : InventoryState) (i : MovementInput) (ts : Nat) :
    Except ValidationError InventoryState :=
  match validate s.product i with
  | .error e => .error e
  | .ok v =>
      let pm := save s.product v ts
      let alerts2 := check_stock_alerts pm.1 s.alerts ts
      .ok { product := pm.1, ledger := s.ledger ++ [pm.2], alerts := alerts2 }

/-- The observable effect of one append request: a rejected request leaves
the state exactly as it was and surfaces the validation error. -/
def apply_movement (s : InventoryState) (i : MovementInput) (ts : Nat) :
    InventoryState × Option ValidationError :=
  match append_movement s i ts with
  | .ok s2 => (s2, none)
  | .error e => (s, some e)

/-- A sequence of append requests, each taking effect only when it
validates. -/
def appendAll (s : InventoryState) :
    List (MovementInput × Nat) → InventoryState
  | [] => s
  | (i, ts) :: rest => appendAll (apply_movement s i ts).1 rest

end Inventory

namespace Inventory

/-- Claim C2 helper fact: `save` never branches on the timestamp. -/
theorem save_quantity_abs (product : Product) (i : MovementInput) (ts : Nat) :
    (save product i ts).2.quantity = |i.quantity| := rfl

/-- Claim C2: an appended movement stores `|quantity|`; its `balance_after`
is `current_quantity + |quantity|` for `STOCK_IN`/`RETURN`/`TRANSFER_IN` and
`current_quantity - |quantity|` for every other kind; and the product's
cached `current_quantity` is set to that `balance_after`. -/
theorem save_sign_rule (product : Product) (i : MovementInput) (ts : Nat) :
    (save product i ts).2.quantity = |i.quantity| ∧
    (save product i ts).2.balance_after =
      (if i.movement_type = .STOCK_IN ∨ i.movement_type = .RETURN ∨
          i.movement_type = .TRANSFER_IN
       then product.current_quantity + |i.quantity|
       else product.current_quantity - |i.quantity|) ∧
    (save product i ts).1.current_quantity = (save product i ts).2.balance_after := by
  refine ⟨rfl, ?_, rfl⟩
  cases h : i.movement_type <;>
    simp [save, MovementType.isInbound, h]

/-- The concrete product of claim C3's failing input: cached quantity 5. -/
def productC3 : Product :=
  { current_quantity := 5, reorder_level := 0, tracking_type := .NONE }

/-- The concrete ledger of claim C3's failing input: one `STOCK_IN` of 7,
so the replayed truth is 7 while the cache says 5. -/
def ledgerC3 : List StockMovement :=
  [{ movement_type := .STOCK_IN, quantity := 7, balance_after := 7,
     serial_number := "", batch_number := "", reason := "", timestamp := 0 }]

/-- Claim C3 (code bug): on a product cached at 5 whose ledger replays to 7,
`recalculate_stock` does correct the cache to 7, but the `old_quantity` it
reports is 7 — the corrected value, read after the in-place update — not the
pre-correction value 5 the spec (and the key's own name) promise. -/
theorem recalculate_stock_reports_new_as_old :
    (recalculate_stock productC3 ledgerC3).1.current_quantity = 7 ∧
    (recalculate_stock productC3 ledgerC3).2 = RecalcResult.fixed 7 7 ∧
    productC3.current_quantity = 5 := by
  refine ⟨rfl, rfl, rfl⟩

/-- Claim C8: a second `recalculate_stock` with no intervening movements
reports `fixed: false` with the confirmed value, whatever the first call did;
and an empty ledger reconciles the product to 0 (the routine is total). -/
theorem recalculate_stock_idempotent (product : Product)
    (ledger : List StockMovement) :
    (recalculate_stock (recalculate_stock product ledger).1 ledger).2 =
      RecalcResult.notFixed (recalcQuantity ledger) ∧
    (recalculate_stock product []).1.current_quantity = 0 := by
  constructor
  · by_cases h : product.current_quantity = recalcQuantity ledger <;>
      simp [recalculate_stock, h]
  · by_cases h : product.current_quantity = 0 <;>
      simp [recalculate_stock, recalcQuantity, h]

/-- Appending one row shifts the replayed total by the row's signed
quantity. -/
theorem recalcQuantity_append (l : List StockMovement) (m : StockMovement) :
    recalcQuantity (l ++ [m]) =
      if m.movement_type.isInbound then recalcQuantity l + m.quantity
      else recalcQuantity l - m.quantity := by
  simp [recalcQuantity, List.foldl_append]

/-- One append request (accepted or rejected) preserves the cache/ledger
agreement. -/
theorem apply_movement_preserves (s : InventoryState) (i : MovementInput)
    (ts : Nat)
    (h : s.product.current_quantity = recalcQuantity s.ledger) :
    (apply_movement s i ts).1.product.current_quantity =
      recalcQuantity (apply_movement s i ts).1.ledger := by
  unfold apply_movement append_movement
  cases hv : validate s.product i with
  | error e => simpa using h
  | ok v =>
      by_cases hi : v.movement_type.isInbound <;>
        simp [save, recalcQuantity_append, hi, h]

/-- Claim C1: if a product's cached `current_quantity` equals the signed sum
of its ledger, then after any sequence of append requests (each taking
effect only when it validates) the cache again equals the signed sum of the
resulting ledger. -/
theorem append_preserves_stock_invariant (s : InventoryState)
    (inputs : List (MovementInput × Nat))
    (h : s.product.current_quantity = recalcQuantity s.ledger) :
    (appendAll s inputs).product.current_quantity =
      recalcQuantity (appendAll s inputs).ledger := by
  induction inputs generalizing s with
  | nil => simpa [appendAll] using h
  | cons p rest ih =>
      obtain ⟨i, ts⟩ := p
      exact ih _ (apply_movement_preserves s i ts h)

/-- The initial state of claim C1's witness: an empty product. -/
def stateC1 : InventoryState :=
  { product := { current_quantity := 0, reorder_level := 0,
                 tracking_type := .NONE },
    ledger := [], alerts := [] }

/-- The spec's round-trip sequence, used as claim C1's witness inputs:
a `STOCK_IN` of 10 then a `SALE` of 3. -/
def inputsC1 : List (MovementInput × Nat) :=
  [({ movement_type := .STOCK_IN, quantity := 10, serial_number := "",
      batch_number := "", reason := "" }, 1),
   ({ movement_type := .SALE, quantity := 3, serial_number := "",
      batch_number := "", reason := "" }, 2)]

/-- Witness for claim C1 at the round-trip input. -/
theorem append_preserves_stock_invariant_witness :
    stateC1.product.current_quantity = recalcQuantity stateC1.ledger ∧
    (appendAll stateC1 inputsC1).product.current_quantity =
      recalcQuantity (appendAll stateC1 inputsC1).ledger :=
  ⟨rfl, append_preserves_stock_invariant stateC1 inputsC1 rfl⟩

/-- Claim C7 (code bug): the already-resolved half holds — a second resolve
request is rejected with the "already resolved" error and changes nothing —
but the success half does not: resolving an open alert reaches
`timezone.now()` in a module that never imports `timezone`, so it raises
`NameError` before `alert.save()` and persists no resolution at all,
instead of succeeding with flag, actor and timestamp set. -/
theorem resolve_unresolved_alert_crashes :
    resolve { alert_type := .LOW_STOCK, is_resolved := false,
              resolved_at := none, resolved_by := none, created_at := 0 } 9 =
      .error .unboundTimezone ∧
    resolve { alert_type := .OUT_OF_STOCK, is_resolved := true,
              resolved_at := some 1, resolved_by := some 4,
              created_at := 0 } 9 =
      .error .alreadyResolved :=
  ⟨rfl, rfl⟩

/-- Claim C10: an `ADJUSTMENT` whose quantity exceeds the current balance is
accepted by `validate` (the insufficient-stock check lists only `SALE`,
`DAMAGE`, `THEFT`, `TRANSFER_OUT`), and the save then subtracts it, driving
both the cached quantity and the row's `balance_after` strictly negative.
The hypotheses besides `ADJUSTMENT`, a positive requested quantity exceeding
the balance, and a nonempty reason just say the tracking-number rules are
met. -/
theorem adjustment_can_go_negative (s : InventoryState) (i : MovementInput)
    (ts : Nat)
    (hmt : i.movement_type = .ADJUSTMENT)
    (hq : 0 < i.quantity)
    (hr : ¬ i.reason = "")
    (hser : ¬(s.product.tracking_type = .SERIAL ∧ i.serial_number = ""))
    (hbat : ¬(s.product.tracking_type = .BATCH ∧ i.batch_number = ""))
    (hboth : ¬(s.product.tracking_type = .BOTH ∧
      (i.serial_number = "" ∨ i.batch_number = "")))
    (hgt : s.product.current_quantity < i.quantity) :
    append_movement s i ts =
      .ok { product :=
              { s.product with
                  current_quantity := s.product.current_quantity - i.quantity }
            ledger := s.ledger ++
              [{ movement_type := i.movement_type
                 quantity := i.quantity
                 balance_after := s.product.current_quantity - i.quantity
                 serial_number := i.serial_number
                 batch_number := i.batch_number
                 reason := i.reason
                 timestamp := ts }]
            alerts := check_stock_alerts
              { s.product with
                  current_quantity := s.product.current_quantity - i.quantity }
              s.alerts ts } ∧
    s.product.current_quantity - i.quantity < 0 := by
  have habs : |i.quantity| = i.quantity := abs_of_pos hq
  have hv : validate s.product i = .ok i := by
    simp [validate, hmt, hser, hbat, hboth, hr,
      (show ¬ i.quantity ≤ 0 by omega)]
  constructor
  · simp [append_movement, hv, save, MovementType.isInbound, hmt, habs]
  · omega

/-- The state of claim C10's witness: balance 2, no tracking. -/
def stateC10 : InventoryState :=
  { product := { current_quantity := 2, reorder_level := 0,
                 tracking_type := .NONE },
    ledger := [], alerts := [] }

/-- The input of claim C10's witness: an `ADJUSTMENT` of 5 against a
balance of 2. -/
def inputC10 : MovementInput :=
  { movement_type := .ADJUSTMENT, quantity := 5, serial_number := "",
    batch_number := "", reason := "stock count correction" }

/-- Witness for claim C10: the adjustment of 5 against balance 2 is accepted
and leaves the balance at -3. -/
theorem adjustment_can_go_negative_witness :
    append_movement stateC10 inputC10 3 =
      .ok { product :=
              { stateC10.product with
                  current_quantity :=
                    stateC10.product.current_quantity - inputC10.quantity }
            ledger := stateC10.ledger ++
              [{ movement_type := inputC10.movement_type
                 quantity := inputC10.quantity
                 balance_after :=
                   stateC10.product.current_quantity - inputC10.quantity
                 serial_number := inputC10.serial_number
                 batch_number := inputC10.batch_number
                 reason := inputC10.reason
                 timestamp := 3 }]
            alerts := check_stock_alerts
              { stateC10.product with
                  current_quantity :=
                    stateC10.product.current_quantity - inputC10.quantity }
              stateC10.alerts 3 } ∧
    stateC10.product.current_quantity - inputC10.quantity < 0 :=
  adjustment_can_go_negative stateC10 inputC10 3 rfl (by decide) (by decide)
    (by decide) (by decide) (by decide) (by decide)

/-- Claim C4: for an outbound movement (`SALE`/`DAMAGE`/`THEFT`/
`TRANSFER_OUT`) that meets the earlier validation rules, a requested
quantity exceeding the current balance is rejected with the error carrying
the available and requested amounts and the state — ledger and balance —
untouched, while a quantity exactly equal to the balance is accepted and
drives the balance to 0. -/
theorem outbound_insufficient_stock (s : InventoryState) (i : MovementInput)
    (ts : Nat)
    (hout : i.movement_type ∈
      [MovementType.SALE, .DAMAGE, .THEFT, .TRANSFER_OUT])
    (hq : 0 < i.quantity)
    (hser : ¬(s.product.tracking_type = .SERIAL ∧ i.serial_number = ""))
    (hbat : ¬(s.product.tracking_type = .BATCH ∧ i.batch_number = ""))
    (hboth : ¬(s.product.tracking_type = .BOTH ∧
      (i.serial_number = "" ∨ i.batch_number = "")))
    (hreason : ¬(i.movement_type ∈
      [MovementType.RETURN, .DAMAGE, .THEFT, .ADJUSTMENT] ∧ i.reason = "")) :
    (s.product.current_quantity < i.quantity →
       apply_movement s i ts =
         (s, some (.insufficientStock s.product.current_quantity
                     i.quantity))) ∧
    (i.quantity = s.product.current_quantity →
       (apply_movement s i ts).2 = none ∧
       (apply_movement s i ts).1.product.current_quantity = 0 ∧
       (apply_movement s i ts).1.ledger.length = s.ledger.length + 1) := by
  have hout2 : i.movement_type = .SALE ∨ i.movement_type = .DAMAGE ∨
      i.movement_type = .THEFT ∨ i.movement_type = .TRANSFER_OUT := by
    simpa using hout
  have hnin : i.movement_type.isInbound = false := by
    rcases hout2 with h | h | h | h <;> simp [MovementType.isInbound, h]
  have habs : |i.quantity| = i.quantity := abs_of_pos hq
  constructor
  · intro hlt
    have hv : validate s.product i =
        .error (.insufficientStock s.product.current_quantity i.quantity) := by
      simp [validate, hser, hbat, hboth, hout, hlt,
        (show ¬ i.quantity ≤ 0 by omega)]
      intro hm hr
      exact hreason ⟨by simpa using hm, hr⟩
    simp [apply_movement, append_movement, hv]
  · intro heq
    have hv : validate s.product i = .ok i := by
      simp [validate, hser, hbat, hboth,
        (show ¬ i.quantity ≤ 0 by omega),
        (show ¬ s.product.current_quantity < i.quantity by omega)]
      intro hm hr
      exact hreason ⟨by simpa using hm, hr⟩
    refine ⟨?_, ?_, ?_⟩ <;>
      simp [apply_movement, append_movement, hv, save, hnin, habs] <;>
      omega

/-- Claim C4 witness state (a): balance 3, about to be asked for 5. -/
def stateC4a : InventoryState :=
  { product := { current_quantity := 3, reorder_level := 0,
                 tracking_type := .NONE },
    ledger := [], alerts := [] }

/-- Claim C4 witness input (a): a `SALE` of 5 — one more than available
would also do; 5 > 3 is rejected. -/
def inputC4a : MovementInput :=
  { movement_type := .SALE, quantity := 5, serial_number := "",
    batch_number := "", reason := "" }

/-- Claim C4 witness state (b): balance 5. -/
def stateC4b : InventoryState :=
  { product := { current_quantity := 5, reorder_level := 0,
                 tracking_type := .NONE },
    ledger := [], alerts := [] }

/-- Claim C4 witness input (b): a `SALE` of exactly the balance. -/
def inputC4b : MovementInput :=
  { movement_type := .SALE, quantity := 5, serial_number := "",
    batch_number := "", reason := "" }

/-- Witness for claim C4: the boundary pair — a sale of 5 against 3 is
rejected leaving the state untouched; a sale of 5 against 5 succeeds and
drives the balance to 0 with one new ledger row. -/
theorem outbound_insufficient_stock_witness :
    apply_movement stateC4a inputC4a 1 =
      (stateC4a, some (.insufficientStock 3 5)) ∧
    ((apply_movement stateC4b inputC4b 1).2 = none ∧
     (apply_movement stateC4b inputC4b 1).1.product.current_quantity = 0 ∧
     (apply_movement stateC4b inputC4b 1).1.ledger.length =
       stateC4b.ledger.length + 1) :=
  ⟨(outbound_insufficient_stock stateC4a inputC4a 1 (by decide) (by decide)
      (by decide) (by decide) (by decide) (by decide)).1 (by decide),
   (outbound_insufficient_stock stateC4b inputC4b 1 (by decide) (by decide)
      (by decide) (by decide) (by decide) (by decide)).2 (by decide)⟩

/-- Which validation rule — identified by the error it raises — a candidate
movement actually violates, independently of the order the serializer checks
them in. -/
def ruleViolated (product : Product) (i : MovementInput) :
    ValidationError → Prop
  | .quantityNotPositive => i.quantity ≤ 0
  | .serialRequired => product.tracking_type = .SERIAL ∧ i.serial_number = ""
  | .batchRequired => product.tracking_type = .BATCH ∧ i.batch_number = ""
  | .trackingRequired => product.tracking_type = .BOTH ∧
      (i.serial_number = "" ∨ i.batch_number = "")
  | .reasonRequired mt => i.movement_type = mt ∧
      mt ∈ [MovementType.RETURN, .DAMAGE, .THEFT, .ADJUSTMENT] ∧
      i.reason = ""
  | .insufficientStock available requested =>
      available = product.current_quantity ∧ requested = i.quantity ∧
      i.movement_type ∈ [MovementType.SALE, .DAMAGE, .THEFT, .TRANSFER_OUT] ∧
      product.current_quantity < i.quantity

/-- The order in which the serializer's source checks its rules. -/
def ruleIndex : ValidationError → Nat
  | .quantityNotPositive => 0
  | .serialRequired => 1
  | .batchRequired => 2
  | .trackingRequired => 3
  | .reasonRequired _ => 4
  | .insufficientStock _ _ => 5

/-- Claim C6 counterexample product: serial tracking, balance 2. -/
def productC6 : Product :=
  { current_quantity := 2, reorder_level := 0, tracking_type := .SERIAL }

/-- Claim C6 counterexample input: a `DAMAGE` of 5 with no serial number
and no reason against a balance of 2 — three rules violated at once. -/
def inputC6 : MovementInput :=
  { movement_type := .DAMAGE, quantity := 5, serial_number := "",
    batch_number := "", reason := "" }

/-- Claim C6 counterexample: on an input that simultaneously violates the
serial-number rule, the reason rule and the sufficient-stock rule, the
validator reports only the serial-number failure — the first raise aborts
validation, so the other two field-tagged failures are never reported. -/
theorem validate_short_circuits :
    validate productC6 inputC6 = .error .serialRequired ∧
    ValidationError.serialRequired.field = "serial_number" ∧
    ruleViolated productC6 inputC6 (.reasonRequired .DAMAGE) ∧
    ruleViolated productC6 inputC6 (.insufficientStock 2 5) := by
  refine ⟨rfl, rfl, ?_, ?_⟩ <;>
    simp [ruleViolated, productC6, inputC6]

/-- Claim C6 (amended): the validator stops at the first failing rule in
source order — quantity positivity, tracking numbers, reason requirement,
sufficient stock — and reports that failure alone, tagged with its field:
whenever it rejects, the reported rule is genuinely violated and every rule
checked before it is satisfied. -/
theorem validate_reports_first_failure (product : Product) (i : MovementInput)
    (e : ValidationError) (h : validate product i = .error e) :
    ruleViolated product i e ∧
    ∀ e2, ruleIndex e2 < ruleIndex e → ¬ ruleViolated product i e2 := by
  unfold validate at h
  split_ifs at h with h1 h2 h3 h4 h5 h6
  · injection h with h
    subst h
    refine ⟨h1, ?_⟩
    intro e2 he2
    exact absurd he2 (Nat.not_lt_zero _)
  · injection h with h
    subst h
    refine ⟨h2, ?_⟩
    intro e2 he2 hv
    cases e2 <;> simp [ruleIndex] at he2 <;> simp [ruleViolated] at hv
    exact h1 hv
  · injection h with h
    subst h
    refine ⟨h3, ?_⟩
    intro e2 he2 hv
    cases e2 <;> simp [ruleIndex] at he2 <;> simp [ruleViolated] at hv
    · exact h1 hv
    · exact h2 hv
  · injection h with h
    subst h
    refine ⟨h4, ?_⟩
    intro e2 he2 hv
    cases e2 <;> simp [ruleIndex] at he2 <;> simp [ruleViolated] at hv
    · exact h1 hv
    · exact h2 hv
    · exact h3 hv
  · injection h with h
    subst h
    refine ⟨⟨rfl, h5.1, h5.2⟩, ?_⟩
    intro e2 he2 hv
    cases e2 <;> simp [ruleIndex] at he2 <;> simp [ruleViolated] at hv
    · exact h1 hv
    · exact h2 hv
    · exact h3 hv
    · exact h4 hv
  · injection h with h
    subst h
    refine ⟨⟨rfl, rfl, h6.1, h6.2⟩, ?_⟩
    intro e2 he2 hv
    cases e2 <;> simp [ruleIndex] at he2 <;> simp [ruleViolated] at hv
    · exact h1 hv
    · exact h2 hv
    · exact h3 hv
    · exact h4 hv
    · exact h5 ⟨by simpa [hv.1] using hv.2.1, hv.2.2⟩

/-- Claim C6 witness input: quantity 0, so the first rule fires. -/
def inputC6w : MovementInput :=
  { movement_type := .STOCK_IN, quantity := 0, serial_number := "x",
    batch_number := "", reason := "" }

/-- Witness for the amended claim C6 at a non-positive quantity. -/
theorem validate_reports_first_failure_witness :
    ruleViolated productC6 inputC6w .quantityNotPositive :=
  (validate_reports_first_failure productC6 inputC6w _ rfl).1

/-- Claim C5 counterexample product (a): balance -1 (reachable via an
`ADJUSTMENT`), reorder level 5. -/
def productC5neg : Product :=
  { current_quantity := -1, reorder_level := 5, tracking_type := .NONE }

/-- Claim C5 counterexample product (b): balance 10, reorder level 0, i.e.
squarely in the resolve branch. -/
def productC5ok : Product :=
  { current_quantity := 10, reorder_level := 0, tracking_type := .NONE }

/-- An open `LOW_STOCK` alert with no resolution data, for claim C5. -/
def openLowC5 : StockAlert :=
  { alert_type := .LOW_STOCK, is_resolved := false, resolved_at := none,
    resolved_by := none, created_at := 0 }

/-- Claim C5 counterexample: (a) at balance -1 with reorder level 5 neither
of the claim's first two conditions holds (`0 < balance` fails), so the
claim puts the signal in the resolve branch — but the code's `elif` tests
only `balance ≤ reorder_level`, so it instead creates an unresolved
`LOW_STOCK` alert; (b) at balance 10 with reorder level 0 the resolve branch
marks the open `LOW_STOCK` alert resolved yet leaves its `resolved_at` at
`none` rather than set to the current instant, because the bulk
`update(is_resolved=True)` writes no timestamp. -/
theorem check_stock_alerts_vs_claim :
    check_stock_alerts productC5neg [] 7 = [newAlert .LOW_STOCK 7] ∧
    check_stock_alerts productC5ok [openLowC5] 7 =
      [{ openLowC5 with is_resolved := true }] ∧
    ({ openLowC5 with is_resolved := true } : StockAlert).resolved_at = none :=
  ⟨rfl, rfl, rfl⟩

/-- After `get_or_create` an unresolved alert of the requested type always
exists. -/
theorem hasUnresolved_getOrCreate (t : AlertType) (alerts : List StockAlert)
    (now : Nat) :
    hasUnresolved t (getOrCreateUnresolved t alerts now) = true := by
  unfold getOrCreateUnresolved
  by_cases h : hasUnresolved t alerts = true
  · rw [if_pos h]
    exact h
  · rw [if_neg h]
    simp only [hasUnresolved, List.any_append]
    simp [newAlert]

/-- A list is pointwise related to its image under a map whenever the
function realizes the relation. -/
theorem forall2_map_self {α : Type} (f : α → α) (r : α → α → Prop)
    (h : ∀ a, r a (f a)) : ∀ l : List α, List.Forall₂ r l (l.map f)
  | [] => List.Forall₂.nil
  | a :: l => List.Forall₂.cons (h a) (forall2_map_self f r h l)

/-- Claim C5 (amended): after a balance change exactly one branch of the
signal applies — balance 0: an unresolved `OUT_OF_STOCK` alert exists, none
added while one is open; balance nonzero but at or below a positive reorder
level (including negative balances): likewise for `LOW_STOCK`; otherwise
each alert keeps its type, resolution actor and resolution timestamp
exactly as they were — the actor stays null and the timestamp is NOT set to
now — and its resolved flag becomes true precisely if it already was or the
alert is an open `LOW_STOCK`/`OUT_OF_STOCK` one. -/
theorem check_stock_alerts_branches (product : Product)
    (alerts : List StockAlert) (now : Nat) :
    (product.current_quantity = 0 →
       hasUnresolved .OUT_OF_STOCK (check_stock_alerts product alerts now) =
         true ∧
       (hasUnresolved .OUT_OF_STOCK alerts = true →
          check_stock_alerts product alerts now = alerts)) ∧
    (product.current_quantity ≠ 0 →
       product.current_quantity ≤ product.reorder_level →
       product.reorder_level > 0 →
       hasUnresolved .LOW_STOCK (check_stock_alerts product alerts now) =
         true ∧
       (hasUnresolved .LOW_STOCK alerts = true →
          check_stock_alerts product alerts now = alerts)) ∧
    (product.current_quantity ≠ 0 →
       ¬(product.current_quantity ≤ product.reorder_level ∧
         product.reorder_level > 0) →
       List.Forall₂
         (fun a b =>
            b.alert_type = a.alert_type ∧
            b.resolved_at = a.resolved_at ∧
            b.resolved_by = a.resolved_by ∧
            b.created_at = a.created_at ∧
            (b.is_resolved = true ↔
               (a.is_resolved = true ∨ a.alert_type = .LOW_STOCK ∨
                a.alert_type = .OUT_OF_STOCK)))
         alerts (check_stock_alerts product alerts now)) := by
  refine ⟨?_, ?_, ?_⟩
  · intro h0
    constructor
    · simpa [check_stock_alerts, h0] using
        hasUnresolved_getOrCreate .OUT_OF_STOCK alerts now
    · intro hh
      simp [check_stock_alerts, h0, getOrCreateUnresolved, hh]
  · intro h0 hle hpos
    constructor
    · simpa [check_stock_alerts, h0, hle, hpos] using
        hasUnresolved_getOrCreate .LOW_STOCK alerts now
    · intro hh
      simp [check_stock_alerts, h0, hle, hpos, getOrCreateUnresolved, hh]
  · intro h0 h12
    have hmap : check_stock_alerts product alerts now =
        alerts.map fun a =>
          if a.is_resolved = false ∧
              a.alert_type ∈ [AlertType.LOW_STOCK, .OUT_OF_STOCK] then
            { a with is_resolved := true }
          else a := by
      simp [check_stock_alerts, h0, h12]
    rw [hmap]
    refine forall2_map_self _ _ ?_ alerts
    intro a
    obtain ⟨ty, res, rat, rby, cat⟩ := a
    cases ty <;> cases res <;> simp

/-- Claim C5 witness product for the out-of-stock branch. -/
def productC5w0 : Product :=
  { current_quantity := 0, reorder_level := 3, tracking_type := .NONE }

/-- Claim C5 witness product for the low-stock branch. -/
def productC5wLow : Product :=
  { current_quantity := 2, reorder_level := 3, tracking_type := .NONE }

/-- Witness for the amended claim C5: each of the three branches at a
concrete product — balance 0, balance 2 with reorder level 3, and balance
10 with reorder level 0 over one open `LOW_STOCK` alert. -/
theorem check_stock_alerts_branches_witness :
    hasUnresolved .OUT_OF_STOCK (check_stock_alerts productC5w0 [] 6) =
      true ∧
    hasUnresolved .LOW_STOCK (check_stock_alerts productC5wLow [] 6) =
      true ∧
    List.Forall₂
      (fun a b =>
         b.alert_type = a.alert_type ∧
         b.resolved_at = a.resolved_at ∧
         b.resolved_by = a.resolved_by ∧
         b.created_at = a.created_at ∧
         (b.is_resolved = true ↔
            (a.is_resolved = true ∨ a.alert_type = .LOW_STOCK ∨
             a.alert_type = .OUT_OF_STOCK)))
      [openLowC5] (check_stock_alerts productC5ok [openLowC5] 6) :=
  ⟨((check_stock_alerts_branches productC5w0 [] 6).1 rfl).1,
   ((check_stock_alerts_branches productC5wLow [] 6).2.1 (by decide)
      (by decide) (by decide)).1,
   (check_stock_alerts_branches productC5ok [openLowC5] 6).2.2 (by decide)
      (by decide)⟩

end Inventory
